import Mathlib

/-!
Verification development for the panel-construction pipeline of
`replication_code_tb818_beem136_2025.py` (Section 1: cleaning and balancing
panels for civil legal aid provision in England and Wales).

The pipeline is embedded shallowly: pandas tables become lists of structures,
pandas column arithmetic becomes exact arithmetic over `PF` (a rational number,
NaN, or a signed infinity — the observable states of a pandas float64 cell,
with exact rationals in place of IEEE rounding), and operations that raise in
pandas (`astype(int)` on NaN, `.iloc[0]` on an empty selection,
`.str.startswith(...).astype(int)` on NaN) become `Except.error` outcomes.
-/

namespace LegalAid

/-- A pandas float64 cell value: an exact rational, NaN (the missing marker
produced by `errors="coerce"`, failed merges and 0/0), or a signed infinity
(produced by nonzero/0 division). -/
inductive PF where
  | num : ℚ → PF
  | nan : PF
  | inf : PF
  | ninf : PF
deriving DecidableEq, Inhabited

/-- Is this cell the missing marker? -/
def PF.isNan : PF → Bool
  | .nan => true
  | _ => false

/-- pandas/IEEE addition (exact rationals in place of floats). -/
def PF.add : PF → PF → PF
  | .num a, .num b => .num (a + b)
  | .num _, .inf => .inf
  | .num _, .ninf => .ninf
  | .inf, .num _ => .inf
  | .inf, .inf => .inf
  | .inf, .ninf => .nan
  | .ninf, .num _ => .ninf
  | .ninf, .inf => .nan
  | .ninf, .ninf => .ninf
  | .nan, _ => .nan
  | _, .nan => .nan

/-- pandas/IEEE multiplication. -/
def PF.mul : PF → PF → PF
  | .num a, .num b => .num (a * b)
  | .num a, .inf => if 0 < a then .inf else if a < 0 then .ninf else .nan
  | .num a, .ninf => if 0 < a then .ninf else if a < 0 then .inf else .nan
  | .inf, .num b => if 0 < b then .inf else if b < 0 then .ninf else .nan
  | .ninf, .num b => if 0 < b then .ninf else if b < 0 then .inf else .nan
  | .inf, .inf => .inf
  | .inf, .ninf => .ninf
  | .ninf, .inf => .ninf
  | .ninf, .ninf => .inf
  | .nan, _ => .nan
  | _, .nan => .nan

/-- pandas/IEEE division: `x / 0` is `±inf` for `x ≠ 0` and NaN for `0 / 0`;
this is exactly the behaviour `fillna(0)` in the source does and does not
repair. -/
def PF.div : PF → PF → PF
  | .num a, .num b =>
      if b = 0 then (if a = 0 then .nan else if 0 < a then .inf else .ninf)
      else .num (a / b)
  | .num _, .inf => .num 0
  | .num _, .ninf => .num 0
  | .inf, .num b => if b < 0 then .ninf else .inf
  | .ninf, .num b => if b < 0 then .inf else .ninf
  | .inf, .inf => .nan
  | .inf, .ninf => .nan
  | .ninf, .inf => .nan
  | .ninf, .ninf => .nan
  | .nan, _ => .nan
  | _, .nan => .nan

/-- `Series.fillna(0)`: replaces NaN (and only NaN — not infinities) by zero. -/
def PF.fillna0 : PF → PF
  | .nan => .num 0
  | x => x

/-- `Series.sum()` with pandas defaults: NaN entries are skipped and the empty
sum is 0 (`min_count=0`). -/
def psum (l : List PF) : PF :=
  (l.filter (fun x => !x.isNan)).foldr PF.add (.num 0)

/-- `Series.mean()` with pandas defaults: NaN entries are skipped; the mean of
no non-NaN entries is NaN. -/
def pmean (l : List PF) : PF :=
  let v := l.filter (fun x => !x.isNan)
  if v.length = 0 then .nan else PF.div (v.foldr PF.add (.num 0)) (.num v.length)

/-- Lexicographic comparison of char lists by code point, as Python compares
`str` values. (Lean's own `String` order is not kernel-reducible, so the
comparison is spelled out over the underlying character lists.) -/
def strLtb : List Char → List Char → Bool
  | [], [] => false
  | [], _ :: _ => true
  | _ :: _, [] => false
  | a :: as, b :: bs =>
      if a.toNat < b.toNat then true
      else if b.toNat < a.toNat then false
      else strLtb as bs

/-- Python `s1 < s2` on strings. -/
def pyLt (a b : String) : Bool := strLtb a.data b.data

/-- Python `s1 <= s2` on strings. -/
def pyLe (a b : String) : Bool := !(strLtb b.data a.data)

/-- Python `s.startswith(p)` (also kernel-reducible, unlike
`String.startsWith`). -/
def startsWithCh : List Char → List Char → Bool
  | _, [] => true
  | [], _ :: _ => false
  | a :: as, b :: bs => if a = b then startsWithCh as bs else false

/-- `s.startswith(p)` on strings. -/
def pyStartsWith (s p : String) : Bool := startsWithCh s.data p.data

/-- The digits of a char list read as a natural number, if all chars are
digits. -/
def parseNatDigits (cs : List Char) : Option ℕ :=
  if cs.all (·.isDigit) then some (cs.foldl (fun n c => n * 10 + (c.toNat - 48)) 0)
  else none

/-- Split a char list at `.` characters. -/
def splitDotAux (acc : List Char) : List Char → List (List Char)
  | [] => [acc.reverse]
  | c :: rest =>
      if c = '.' then acc.reverse :: splitDotAux [] rest
      else splitDotAux (c :: acc) rest

/-- Strip leading and trailing whitespace. -/
def trimCh (cs : List Char) : List Char :=
  ((cs.dropWhile Char.isWhitespace).reverse.dropWhile Char.isWhitespace).reverse

/-- `pd.to_numeric(s, errors="coerce")` on a string cell, for the literal forms
the pipeline's inputs use: optional sign, decimal digits, optional fractional
part. Anything else coerces to the missing marker. -/
def toNumericQ (s : String) : Option ℚ :=
  match trimCh s.data with
  | [] => none
  | cs =>
    let (sgn, body) : ℚ × List Char :=
      match cs with
      | '-' :: rest => (-1, rest)
      | '+' :: rest => (1, rest)
      | _ => (1, cs)
    match splitDotAux [] body with
    | [ip] =>
        if ip.isEmpty then none
        else (parseNatDigits ip).map (fun n => sgn * (n : ℚ))
    | [ip, fp] =>
        if ip.isEmpty && fp.isEmpty then none
        else
          match parseNatDigits ip, parseNatDigits fp with
          | some i, some f => some (sgn * ((i : ℚ) + (f : ℚ) / ((10 : ℚ) ^ fp.length)))
          | _, _ => none
    | _ => none

/-- `pd.to_numeric(..., errors="coerce")` as a `PF` cell. -/
def toNumeric (s : String) : PF :=
  match toNumericQ s with
  | some q => .num q
  | none => .nan

/-- numpy float-to-int conversion truncates toward zero. -/
def ratTrunc (q : ℚ) : ℤ := Int.tdiv q.num q.den

/-- A raw case record, as selected and renamed by the initial cleaning step
(source columns `VOL`, `Total Value`, `Fin_YR`, `FIN_QTR`, `LACode`,
`firm_code`). `volume` is read as a numeric cell; `value`, `fy` and `fq` are
the raw cells to which `pd.to_numeric(..., errors="coerce")` is applied. -/
structure RawRecord where
  volume : PF
  value : String
  fy : String
  fq : String
  lacode : String
  firm_code : String
deriving DecidableEq, Inhabited

/-- `FQ_TO_CAL_Q = {1: 2, 2: 3, 3: 4, 4: 1}`: `Series.map` of the financial
quarter through the dict; a value outside the dict's keys maps to NaN. -/
def FQ_TO_CAL_Q (q : ℚ) : PF :=
  if q = 1 then .num 2
  else if q = 2 then .num 3
  else if q = 3 then .num 4
  else if q = 4 then .num 1
  else .nan

/-- `cal_q = clean_data["fq"].map(FQ_TO_CAL_Q)` for one record. -/
def cal_q (r : RawRecord) : PF :=
  match toNumeric r.fq with
  | .num q => FQ_TO_CAL_Q q
  | _ => .nan

/-- `fy_start = to_numeric(fy.astype(str).str[:4])` for one record. -/
def fy_start (r : RawRecord) : PF := toNumeric (r.fy.take 4)

/-- `cal_year = fy_start + (fq == 4).astype(int)` for one record (a NaN
financial quarter compares unequal to 4, so contributes 0). -/
def cal_year (r : RawRecord) : PF :=
  PF.add (fy_start r) (.num (if toNumeric r.fq = PF.num 4 then 1 else 0))

/-- `cal_year.astype(int).astype(str) + "-q" + cal_q.astype(int).astype(str)`
for one record; `none` marks the NaN that makes the vectorised `astype(int)`
raise for the whole frame. -/
def year_quarter_of (r : RawRecord) : Option String :=
  match cal_year r, cal_q r with
  | .num y, .num c => some (toString (ratTrunc y) ++ "-q" ++ toString (ratTrunc c))
  | _, _ => none

/-- A cleaned case record with its derived canonical Period. -/
structure CleanRow where
  volume : PF
  value : PF
  lacode : String
  firm_code : String
  year_quarter : String
deriving DecidableEq, Inhabited

/-- The per-record part of the cleaning transform. -/
def cleanRowOf (r : RawRecord) : CleanRow :=
  { volume := r.volume
    value := toNumeric r.value
    lacode := r.lacode
    firm_code := r.firm_code
    year_quarter := (year_quarter_of r).getD "" }

/-- The cleaning stage (source lines 73–93). The `year_quarter` column is
built with `cal_year.astype(int)...` and `cal_q.astype(int)...`: these are
vectorised casts, so a NaN in either derived column — i.e. any record whose
financial year or quarter failed numeric coercion (or whose quarter is outside
1..4) — raises for the whole frame. -/
def clean_data (raws : List RawRecord) : Except String (List CleanRow) :=
  if raws.any (fun r => (year_quarter_of r).isNone)
  then .error "ValueError: Cannot convert non-finite values (NA or inf) to integer"
  else .ok (raws.map cleanRowOf)

/-- One row of `completed_la_totals`: LA × quarter aggregates. -/
structure FactRow where
  year_quarter : String
  lacode : String
  la_total_volume : PF
  la_total_value : PF
  unique_providers : ℕ
deriving DecidableEq, Inhabited

/-- One row of `quarterly_totals`: national aggregates per quarter. -/
structure QRow where
  year_quarter : String
  total_volume : PF
  total_value : PF
  total_unique_providers : ℕ
deriving DecidableEq, Inhabited

/-- Insertion into a list sorted by `le`. -/
def insertLe {κ : Type} (le : κ → κ → Bool) (x : κ) : List κ → List κ
  | [] => [x]
  | y :: ys => if le x y then x :: y :: ys else y :: insertLe le x ys

/-- Insertion sort (structural, hence kernel-reducible). -/
def sortLe {κ : Type} (le : κ → κ → Bool) : List κ → List κ
  | [] => []
  | x :: xs => insertLe le x (sortLe le xs)

/-- The sorted distinct keys of a column, as produced by pandas `groupby`
(whose output is sorted by key) and by `.sort_values().unique()`. -/
def sortedKeys {κ : Type} [DecidableEq κ] (le : κ → κ → Bool) (l : List κ) : List κ :=
  sortLe le l.dedup

/-- Order on (year_quarter, lacode) pairs for `groupby(["year_quarter", "lacode"])`. -/
def lePair (a b : String × String) : Bool :=
  if pyLt a.1 b.1 then true
  else if pyLt b.1 a.1 then false
  else pyLe a.2 b.2

/-- `clean_data.groupby(["year_quarter", "lacode"]).agg(sum, sum, nunique)`
(source lines 98–104): volume and value are summed (NaN-skipping), providers
are counted distinct. -/
def completed_la_totals (rows : List CleanRow) : List FactRow :=
  (sortedKeys lePair (rows.map (fun r => (r.year_quarter, r.lacode)))).map fun k =>
    let grp := rows.filter (fun r => r.year_quarter = k.1 ∧ r.lacode = k.2)
    { year_quarter := k.1
      lacode := k.2
      la_total_volume := psum (grp.map (·.volume))
      la_total_value := psum (grp.map (·.value))
      unique_providers := ((grp.map (·.firm_code)).dedup).length }

/-- `clean_data.groupby("year_quarter").agg(...)` (source lines 109–115). -/
def quarterly_totals (rows : List CleanRow) : List QRow :=
  (sortedKeys pyLe (rows.map (·.year_quarter))).map fun q =>
    let grp := rows.filter (fun r => r.year_quarter = q)
    { year_quarter := q
      total_volume := psum (grp.map (·.volume))
      total_value := psum (grp.map (·.value))
      total_unique_providers := ((grp.map (·.firm_code)).dedup).length }

/-- A row of the ONS LA lookup (`LAD23CD`, `LAD23NM`). -/
structure LookupRow where
  code : String
  name : String
deriving DecidableEq, Inhabited

/-- `drop_duplicates(subset="lacode")`: keep the first row for each code. -/
def dedupByCodeAux (seen : List String) : List LookupRow → List LookupRow
  | [] => []
  | r :: rest =>
      if r.code ∈ seen then dedupByCodeAux seen rest
      else r :: dedupByCodeAux (r.code :: seen) rest

/-- `la_lookup_filtered` (source lines 125–130): keep England/Wales codes,
drop duplicate codes keeping the first occurrence. -/
def la_lookup_filtered (lookup : List LookupRow) : List LookupRow :=
  dedupByCodeAux []
    (lookup.filter (fun r => pyStartsWith r.code "E" || pyStartsWith r.code "W"))

/-- `all_quarters` (source lines 136–140): the sorted distinct quarters
present in the aggregated facts — not the full analysis window. -/
def all_quarters (facts : List FactRow) : List String :=
  sortedKeys pyLe (facts.map (·.year_quarter))

/-- `all_las` (source lines 142–146): sorted distinct E/W LA codes. -/
def all_las (lkpF : List LookupRow) : List String :=
  sortedKeys pyLe (lkpF.map (·.code))

/-- Find the fact row for a (quarter, LA) cell, if any. -/
def findFact (facts : List FactRow) (q a : String) : Option FactRow :=
  facts.find? (fun f => f.year_quarter = q ∧ f.lacode = a)

/-- A row of the balanced panel after zero-filling and both merges. -/
structure BalRow where
  year_quarter : String
  lacode : String
  la_total_volume : PF
  la_total_value : PF
  unique_providers : PF
  localauthority : Option String
  total_volume : PF
  total_value : PF
  total_unique_providers : PF
deriving DecidableEq, Inhabited

/-- One cell of the reindexed panel: the fact values where present, NaN where
absent, then `fillna(0)` on the three facts columns; LA name and national
totals left-merged on. -/
def mkBalRow (facts : List FactRow) (qts : List QRow) (lkpF : List LookupRow)
    (q a : String) : BalRow :=
  let f := findFact facts q a
  let qt := qts.find? (fun t => t.year_quarter = q)
  { year_quarter := q
    lacode := a
    la_total_volume := PF.fillna0 (match f with | some x => x.la_total_volume | none => .nan)
    la_total_value := PF.fillna0 (match f with | some x => x.la_total_value | none => .nan)
    unique_providers :=
      PF.fillna0 (match f with | some x => .num x.unique_providers | none => .nan)
    localauthority := (lkpF.find? (fun r => r.code = a)).map (·.name)
    total_volume := match qt with | some t => t.total_volume | none => .nan
    total_value := match qt with | some t => t.total_value | none => .nan
    total_unique_providers :=
      match qt with | some t => .num t.total_unique_providers | none => .nan }

/-- Is the quarter inside the trim window `2010-q1 .. 2019-q4` (lexicographic
string comparison, as in the source)? -/
def inWindow (q : String) : Bool := pyLe "2010-q1" q && pyLe q "2019-q4"

/-- `balanced_panel` (source lines 149–179): the full quarters × LAs cross
product, reindexed facts with structural zeros, LA names and national totals
merged on, trimmed to the analysis window. -/
def balanced_panel (facts : List FactRow) (qts : List QRow)
    (lkpF : List LookupRow) : List BalRow :=
  ((all_quarters facts).flatMap fun q =>
      (all_las lkpF).map fun a => mkBalRow facts qts lkpF q a).filter
    (fun r => inWindow r.year_quarter)

/-- One row of the merged census table, restricted to the columns the panel
derivations read (`residents_total` for exposure and desert population,
`working_age` for its log). The census-cleaning stage (source §1C) that
produces this table is not exercised by any claim; its output has one row per
LA code (it ends in `groupby("lacode")`), so it is taken here as an input
keyed uniquely by `lacode`. -/
structure CensusRow where
  lacode : String
  residents_total : ℚ
  working_age : ℚ
deriving DecidableEq, Inhabited

/-- One row of the inflation table (`year_quarter`, `index_15`), keyed
uniquely by quarter as in the source CSV. -/
structure InflRow where
  year_quarter : String
  index_15 : ℚ
deriving DecidableEq, Inhabited

/-- One row of the rural/urban classification (`LAD23CD`, `rural_code`),
keyed uniquely by LA code as in the source CSV. -/
structure RuralRow where
  code : String
  rural_code : String
deriving DecidableEq, Inhabited

/-- The panel after the census and inflation merges and the value/ratio
derivations (source lines 520–546). -/
structure ARow extends BalRow where
  residents_total : PF
  working_age : PF
  index_15 : PF
  adjusted_la_total_value : PF
  adjusted_total_value : PF
  val_vol : PF
  la_val_vol : PF
deriving DecidableEq, Inhabited

/-- Per-row part of the census merge, inflation merge, adjusted values and
value-per-volume ratios. A failed left merge leaves NaN; the ratios are
`fillna(0)` (which repairs 0/0's NaN but not nonzero/0's infinity). -/
def mkARow (census : List CensusRow) (infl : List InflRow) (b : BalRow) : ARow :=
  let res : PF :=
    match census.find? (fun c => c.lacode = b.lacode) with
    | some c => .num c.residents_total
    | none => .nan
  let wa : PF :=
    match census.find? (fun c => c.lacode = b.lacode) with
    | some c => .num c.working_age
    | none => .nan
  let idx : PF :=
    match infl.find? (fun i => i.year_quarter = b.year_quarter) with
    | some i => .num i.index_15
    | none => .nan
  let adjLa := PF.mul b.la_total_value idx
  let adjT := PF.mul b.total_value idx
  { toBalRow := b
    residents_total := res
    working_age := wa
    index_15 := idx
    adjusted_la_total_value := adjLa
    adjusted_total_value := adjT
    val_vol := PF.fillna0 (PF.div adjT b.total_volume)
    la_val_vol := PF.fillna0 (PF.div adjLa b.la_total_volume) }

/-- The panel after the rebased indices (source lines 550–558). -/
structure BRow extends ARow where
  volume_index : PF
  value_index : PF
  cases_index : PF
deriving DecidableEq, Inhabited

/-- The rebased indices against the first `2012-q4` row (`.iloc[0]` of the
`loc` selection), then `fillna(0)`. -/
def mkBRow (anch : ARow) (r : ARow) : BRow :=
  { toARow := r
    volume_index := PF.fillna0 (PF.mul (PF.div r.total_volume anch.total_volume) (.num 100))
    value_index :=
      PF.fillna0 (PF.mul (PF.div r.adjusted_total_value anch.adjusted_total_value) (.num 100))
    cases_index := PF.fillna0 (PF.mul (PF.div r.val_vol anch.val_vol) (.num 100)) }

/-- Source lines 522–558 as one stage: merge census and inflation, derive
adjusted values and ratios, then build the rebased indices. `.iloc[0]` on the
`year_quarter == "2012-q4"` selection raises `IndexError` when the panel has
no such row. -/
def stageA (bal : List BalRow) (census : List CensusRow) (infl : List InflRow) :
    Except String (List BRow) :=
  let m := bal.map (mkARow census infl)
  match m.find? (fun r => r.year_quarter = "2012-q4") with
  | none => .error "IndexError: single positional indexer is out-of-bounds"
  | some anch => .ok (m.map (mkBRow anch))

/-- `value_pc = adjusted_la_total_value / residents_total` (source line 572). -/
def value_pc (r : BRow) : PF := PF.div r.adjusted_la_total_value r.residents_total

/-- `year_quarter < laspo_implemented` with `laspo_implemented = "2013-q1"`. -/
def preLaspo (r : BRow) : Bool := pyLt r.year_quarter "2013-q1"

/-- `exposure = pre_laspo.groupby("lacode")["value_pc"].mean()` (source lines
571–577): per-LA mean of pre-cutoff value per capita, keyed by the LA codes
that have at least one pre-cutoff row. -/
def exposureTable (rows : List BRow) : List (String × PF) :=
  let pre := rows.filter preLaspo
  (sortedKeys pyLe (pre.map (·.lacode))).map fun a =>
    (a, pmean ((pre.filter (fun r => r.lacode = a)).map value_pc))

/-- `desert = (unique_providers == 0).astype(int)` (source line 587). -/
def desertOf (r : BRow) : ℕ := if r.unique_providers = PF.num 0 then 1 else 0

/-- `ever_desert = full_panel.groupby("lacode")["desert"].max()` (source
line 590). -/
def everDesertTable (rows : List BRow) : List (String × ℕ) :=
  (sortedKeys pyLe (rows.map (·.lacode))).map fun a =>
    (a, ((rows.filter (fun r => r.lacode = a)).map desertOf).foldr Nat.max 0)

/-- `prop_zero = full_panel.groupby("year_quarter")["desert"].mean()` (source
lines 594–598). -/
def propZeroTable (rows : List BRow) : List (String × PF) :=
  (sortedKeys pyLe (rows.map (·.year_quarter))).map fun q =>
    (q, pmean ((rows.filter (fun r => r.year_quarter = q)).map
      (fun r => PF.num (desertOf r))))

/-- `pop_zero = full_panel.loc[desert == 1].groupby("year_quarter")
["residents_total"].sum()` (source lines 600–604): computed only over desert
rows, so a quarter with no desert is absent from the table. -/
def popZeroTable (rows : List BRow) : List (String × PF) :=
  let d := rows.filter (fun r => desertOf r = 1)
  (sortedKeys pyLe (d.map (·.year_quarter))).map fun q =>
    (q, psum ((d.filter (fun r => r.year_quarter = q)).map (·.residents_total)))

/-- Lookup in a keyed table (a left merge of a groupby result). -/
def lookupTbl {α : Type} (t : List (String × α)) (k : String) : Option α :=
  (t.find? (fun p => p.1 = k)).map (·.2)

/-- The final panel row (source lines 568–612 add these columns). The two
log columns of source lines 564–565 (`log_residents_total`,
`log_working_age`) are omitted: no claim reads them, their values are
transcendental, and on the missing-value side they are NaN only when their
census input is itself NaN (already carried here) or negative (a precondition
violation per the spec). -/
structure FinalRow extends BRow where
  exposure : PF
  post : ℕ
  desert : ℕ
  ever_desert : PF
  prop_zero : PF
  pop_zero : PF
  rural_code : String
  is_rural : ℕ
deriving DecidableEq, Inhabited

/-- Per-row part of the derived-variable stage: exposure, the post-LASPO
dummy, desert flags, the per-quarter desert shares and population, and the
rural classification (the groupby tables are computed over the whole panel
`rows` and merged back by key). -/
def finalize (rows : List BRow) (rural : List RuralRow) (r : BRow) : FinalRow :=
  let rc : String :=
    match rural.find? (fun u => u.code = r.lacode) with
    | some u => u.rural_code
    | none => ""
  { toBRow := r
    exposure := (lookupTbl (exposureTable rows) r.lacode).getD .nan
    post := if pyLe "2013-q1" r.year_quarter then 1 else 0
    desert := desertOf r
    ever_desert :=
      match lookupTbl (everDesertTable rows) r.lacode with
      | some n => .num n
      | none => .nan
    prop_zero := (lookupTbl (propZeroTable rows) r.year_quarter).getD .nan
    pop_zero := (lookupTbl (popZeroTable rows) r.year_quarter).getD .nan
    rural_code := rc
    is_rural := if pyStartsWith rc "R" then 1 else 0 }

/-- Source lines 568–612 as one stage. If any panel row's LA code is missing
from the rural table, the left merge leaves `rural_code` NaN and
`.str.startswith("R").astype(int)` raises on the NaN. -/
def stageB (rows : List BRow) (rural : List RuralRow) : Except String (List FinalRow) :=
  if rows.any (fun r => (rural.find? (fun u => u.code = r.lacode)).isNone)
  then .error "IntCastingNaNError: Cannot convert non-finite values (NA or inf) to integer"
  else .ok (rows.map (finalize rows rural))

/-- Does a final-panel row contain a missing value in any embedded column?
(`full_panel.isna().any().any()`, source line 615; integer-typed columns such
as `post`, `desert` and `is_rural` cannot be NaN.) -/
def rowHasNA (r : FinalRow) : Bool :=
  r.la_total_volume.isNan || r.la_total_value.isNan || r.unique_providers.isNan ||
  r.localauthority.isNone || r.total_volume.isNan || r.total_value.isNan ||
  r.total_unique_providers.isNan || r.residents_total.isNan || r.working_age.isNan ||
  r.index_15.isNan || r.adjusted_la_total_value.isNan || r.adjusted_total_value.isNan ||
  r.val_vol.isNan || r.la_val_vol.isNan || r.volume_index.isNan || r.value_index.isNan ||
  r.cases_index.isNan || r.exposure.isNan || r.ever_desert.isNan || r.prop_zero.isNan ||
  r.pop_zero.isNan

/-- `full_panel.isna().any().any()` over the panel. -/
def hasNA (p : List FinalRow) : Bool := p.any rowHasNA

/-- The final data check (source lines 615–618) only prints one of two
messages. -/
def finalCheckMessages (p : List FinalRow) : List String :=
  if hasNA p then ["NAs detected"] else ["No NAs in panel."]

/-- The raw inputs of the Section 1 pipeline. -/
structure Inputs where
  provider_data_raw : List RawRecord
  la_lookup : List LookupRow
  census_data : List CensusRow
  inflation_data : List InflRow
  rural_urban : List RuralRow
deriving DecidableEq, Inhabited

/-- The outcome of a completed run: the printed diagnostics and the panel
written to `full_panel.csv` (source line 621 saves unconditionally after the
check). -/
structure RunResult where
  messages : List String
  saved : List FinalRow
deriving DecidableEq, Inhabited

/-- The whole Section 1 pipeline: clean, aggregate, balance, assemble,
check, save. An `Except.error` is an uncaught exception — nothing is saved. -/
def runPipeline (I : Inputs) : Except String RunResult :=
  match clean_data I.provider_data_raw with
  | .error e => .error e
  | .ok cl =>
    let facts := completed_la_totals cl
    let qts := quarterly_totals cl
    let bal := balanced_panel facts qts (la_lookup_filtered I.la_lookup)
    match stageA bal I.census_data I.inflation_data with
    | .error e => .error e
    | .ok brows =>
      match stageB brows I.rural_urban with
      | .error e => .error e
      | .ok fp => .ok { messages := finalCheckMessages fp, saved := fp }

/-- The cleaned rows of a run (empty if cleaning raised). -/
def clRows (I : Inputs) : List CleanRow :=
  (clean_data I.provider_data_raw).toOption.getD []

/-- The aggregated facts of a run. -/
def factsOf (I : Inputs) : List FactRow := completed_la_totals (clRows I)

/-- The national totals of a run. -/
def qtsOf (I : Inputs) : List QRow := quarterly_totals (clRows I)

/-- The balanced panel of a run. -/
def balOf (I : Inputs) : List BalRow :=
  balanced_panel (factsOf I) (qtsOf I) (la_lookup_filtered I.la_lookup)

/-- The panel after the census/inflation merges of a run. -/
def aRowsOf (I : Inputs) : List ARow :=
  (balOf I).map (mkARow I.census_data I.inflation_data)

/-- The anchor row `.loc[year_quarter == "2012-q4"].iloc[0]` of a run. -/
def anchorOf (I : Inputs) : Option ARow :=
  (aRowsOf I).find? (fun r => r.year_quarter = "2012-q4")

/-- The panel after the rebased indices of a run. -/
def bRowsOf (I : Inputs) : List BRow :=
  match anchorOf I with
  | some anch => (aRowsOf I).map (mkBRow anch)
  | none => []

/-- The final panel of a run, as saved to `full_panel.csv`. -/
def savedOf (I : Inputs) : List FinalRow :=
  (bRowsOf I).map (finalize (bRowsOf I) I.rural_urban)

section ConcreteInputs

/-- A case record with financial year `"2012/13"` and financial quarter 4. -/
def recC3 : RawRecord :=
  { volume := .num 10, value := "10", fy := "2012/13", fq := "4",
    lacode := "E1", firm_code := "f1" }

/-- A case record whose financial quarter is non-numeric. -/
def recBadFq : RawRecord :=
  { volume := .num 1, value := "10", fy := "2012/13", fq := "x",
    lacode := "E1", firm_code := "f1" }

/-- A case record whose financial year is non-numeric. -/
def recBadFy : RawRecord :=
  { volume := .num 1, value := "10", fy := "no-year", fq := "1",
    lacode := "E1", firm_code := "f1" }

/-- A case record whose value is non-numeric (year and quarter fine). -/
def recBadValue : RawRecord :=
  { volume := .num 1, value := "oops", fy := "2012/13", fq := "3",
    lacode := "E1", firm_code := "f1" }

/-- Facts with a single quarter `2015-q3`: the analysis window is 2010-q1..
2019-q4, but the panel only ever contains quarters present in the facts. -/
def exC2facts : List FactRow :=
  [{ year_quarter := "2015-q3", lacode := "E1", la_total_volume := .num 10,
     la_total_value := .num 20, unique_providers := 1 }]

def exC2qts : List QRow :=
  [{ year_quarter := "2015-q3", total_volume := .num 10, total_value := .num 20,
     total_unique_providers := 1 }]

def exC2lkp : List LookupRow := [{ code := "E1", name := "Areaone" }]

/-- Inputs whose lookup contains an LA (`E2`) that the census table lacks:
the assembled panel has NaN in `residents_total` for `E2`. -/
def exC1 : Inputs :=
  { provider_data_raw :=
      [{ volume := .num 1, value := "10", fy := "2012/13", fq := "3",
         lacode := "E1", firm_code := "f" }]
    la_lookup := [{ code := "E1", name := "Areaone" }, { code := "E2", name := "Areatwo" }]
    census_data := [{ lacode := "E1", residents_total := 100, working_age := 50 }]
    inflation_data := [{ year_quarter := "2012-q4", index_15 := 1 }]
    rural_urban := [{ code := "E1", rural_code := "R1" }, { code := "E2", rural_code := "U1" }] }

def resC1 : RunResult := (runPipeline exC1).toOption.getD default

/-- Inputs with one cell holding a single record of volume 0 and value 10:
the cell's value-per-volume ratio is `10 / 0 = inf`, which `fillna(0)` does
not replace. -/
def exC5 : Inputs :=
  { provider_data_raw :=
      [{ volume := .num 0, value := "10", fy := "2012/13", fq := "3",
         lacode := "E1", firm_code := "f" }]
    la_lookup := [{ code := "E1", name := "Areaone" }]
    census_data := [{ lacode := "E1", residents_total := 100, working_age := 50 }]
    inflation_data := [{ year_quarter := "2012-q4", index_15 := 1 }]
    rural_urban := [{ code := "E1", rural_code := "R1" }] }

def resC5 : RunResult := (runPipeline exC5).toOption.getD default

def rowC5 : FinalRow := resC5.saved.headD default

/-- Inputs whose anchor quarter `2012-q4` has national volume 0 while
`2013-q1` has volume 5: the rebased volume index at `2013-q1` is `5/0 = inf`,
not 0. -/
def exC6 : Inputs :=
  { provider_data_raw :=
      [{ volume := .num 0, value := "0", fy := "2012/13", fq := "3",
         lacode := "E1", firm_code := "f" },
       { volume := .num 5, value := "5", fy := "2012/13", fq := "4",
         lacode := "E1", firm_code := "f" }]
    la_lookup := [{ code := "E1", name := "Areaone" }]
    census_data := [{ lacode := "E1", residents_total := 100, working_age := 50 }]
    inflation_data := [{ year_quarter := "2012-q4", index_15 := 1 },
                       { year_quarter := "2013-q1", index_15 := 1 }]
    rural_urban := [{ code := "E1", rural_code := "R1" }] }

def resC6 : RunResult := (runPipeline exC6).toOption.getD default

def rowC6 : FinalRow := resC6.saved.headD default

/-- Inputs where LA `E2` is in the lookup but has no case record at all. -/
def exC7 : Inputs :=
  { provider_data_raw :=
      [{ volume := .num 3, value := "6", fy := "2012/13", fq := "3",
         lacode := "E1", firm_code := "f" }]
    la_lookup := [{ code := "E1", name := "Areaone" }, { code := "E2", name := "Areatwo" }]
    census_data := [{ lacode := "E1", residents_total := 100, working_age := 50 },
                    { lacode := "E2", residents_total := 200, working_age := 90 }]
    inflation_data := [{ year_quarter := "2012-q4", index_15 := 1 }]
    rural_urban := [{ code := "E1", rural_code := "R1" }, { code := "E2", rural_code := "U1" }] }

def resC7 : RunResult := (runPipeline exC7).toOption.getD default

def rowC7 : FinalRow := resC7.saved.getD 1 default

/-- Inputs with two areas and two quarters, for the exposure witness. -/
def exC8 : Inputs :=
  { provider_data_raw :=
      [{ volume := .num 2, value := "8", fy := "2012/13", fq := "3",
         lacode := "E1", firm_code := "f" },
       { volume := .num 4, value := "12", fy := "2012/13", fq := "4",
         lacode := "E1", firm_code := "g" }]
    la_lookup := [{ code := "E1", name := "Areaone" }, { code := "E2", name := "Areatwo" }]
    census_data := [{ lacode := "E1", residents_total := 100, working_age := 50 },
                    { lacode := "E2", residents_total := 200, working_age := 90 }]
    inflation_data := [{ year_quarter := "2012-q4", index_15 := 1 },
                       { year_quarter := "2013-q1", index_15 := 2 }]
    rural_urban := [{ code := "E1", rural_code := "R1" }, { code := "E2", rural_code := "U1" }] }

def resC8 : RunResult := (runPipeline exC8).toOption.getD default

def rowC8 : FinalRow := resC8.saved.headD default

def rowC8b : FinalRow := resC8.saved.getD 2 default

/-- Inputs with two areas sharing each quarter, for the per-quarter-constancy
witness. -/
def exC9 : Inputs :=
  { provider_data_raw :=
      [{ volume := .num 3, value := "6", fy := "2012/13", fq := "3",
         lacode := "E1", firm_code := "f" }]
    la_lookup := [{ code := "E1", name := "Areaone" }, { code := "E2", name := "Areatwo" }]
    census_data := [{ lacode := "E1", residents_total := 100, working_age := 50 },
                    { lacode := "E2", residents_total := 200, working_age := 90 }]
    inflation_data := [{ year_quarter := "2012-q4", index_15 := 1 }]
    rural_urban := [{ code := "E1", rural_code := "R1" }, { code := "E2", rural_code := "U1" }] }

def resC9 : RunResult := (runPipeline exC9).toOption.getD default

def rowC9a : FinalRow := resC9.saved.headD default

def rowC9b : FinalRow := resC9.saved.getD 1 default

/-- Inputs whose single quarter has a provider in every LA: no desert, so
the per-quarter desert-population table is empty and `pop_zero` is NaN. -/
def exC10 : Inputs :=
  { provider_data_raw :=
      [{ volume := .num 3, value := "6", fy := "2012/13", fq := "3",
         lacode := "E1", firm_code := "f" }]
    la_lookup := [{ code := "E1", name := "Areaone" }]
    census_data := [{ lacode := "E1", residents_total := 100, working_age := 50 }]
    inflation_data := [{ year_quarter := "2012-q4", index_15 := 1 }]
    rural_urban := [{ code := "E1", rural_code := "R1" }] }

def resC10 : RunResult := (runPipeline exC10).toOption.getD default

def rowC10 : FinalRow := resC10.saved.headD default

end ConcreteInputs

section Infrastructure

variable {κ : Type}

lemma insertLe_perm (le : κ → κ → Bool) (x : κ) (l : List κ) :
    (insertLe le x l).Perm (x :: l) := by
  induction l with
  | nil => exact List.Perm.refl _
  | cons y ys ih =>
      unfold insertLe
      split
      · exact List.Perm.refl _
      · exact (ih.cons y).trans (List.Perm.swap x y ys)

lemma sortLe_perm (le : κ → κ → Bool) (l : List κ) : (sortLe le l).Perm l := by
  induction l with
  | nil => exact List.Perm.refl _
  | cons x xs ih => exact (insertLe_perm le x (sortLe le xs)).trans (ih.cons x)

lemma mem_sortedKeys [DecidableEq κ] {le : κ → κ → Bool} {l : List κ} {a : κ} :
    a ∈ sortedKeys le l ↔ a ∈ l := by
  unfold sortedKeys
  rw [(sortLe_perm le l.dedup).mem_iff, List.mem_dedup]

lemma nodup_sortedKeys [DecidableEq κ] (le : κ → κ → Bool) (l : List κ) :
    (sortedKeys le l).Nodup :=
  (sortLe_perm le l.dedup).nodup_iff.mpr l.nodup_dedup

lemma filter_map_comm {α β : Type} (f : α → β) (p : β → Bool) (q : α → Bool)
    (hpq : ∀ a, p (f a) = q a) (l : List α) :
    (l.map f).filter p = (l.filter q).map f := by
  induction l with
  | nil => rfl
  | cons x xs ih =>
      simp only [List.map_cons, List.filter_cons, hpq x]
      by_cases hx : q x = true
      · simp [hx, ih]
      · have hx' : q x = false := by simpa using hx
        simp [hx', ih]

lemma countP_flatMap {α β : Type} (l : List α) (f : α → List β) (p : β → Bool) :
    (l.flatMap f).countP p = (l.map fun a => (f a).countP p).sum := by
  induction l with
  | nil => rfl
  | cons x xs ih => simp [List.flatMap_cons, List.countP_append, ih]

lemma fillna0_isNan (x : PF) : (PF.fillna0 x).isNan = false := by
  cases x <;> rfl

lemma countP_eq_one_of_nodup_mem {A : List String} {a : String}
    (hnd : A.Nodup) (ha : a ∈ A) :
    A.countP (fun x => decide (x = a)) = 1 := by
  induction A with
  | nil => exact absurd ha (by simp)
  | cons x xs ih =>
      rw [List.countP_cons]
      by_cases hx : x = a
      · subst hx
        have hnotin : x ∉ xs := (List.nodup_cons.mp hnd).1
        have hz : xs.countP (fun y => decide (y = x)) = 0 :=
          List.countP_eq_zero.mpr (fun y hy => by
            simp only [decide_eq_true_eq]
            exact fun hyx => hnotin (hyx ▸ hy))
        simp [hz]
      · have hmem : a ∈ xs := by
          rcases List.mem_cons.mp ha with h | h
          · exact absurd h.symm hx
          · exact h
        rw [ih (List.nodup_cons.mp hnd).2 hmem]
        simp [hx]

lemma sum_map_eq_one {L : List String} {g : String → ℕ} {q : String}
    (hnd : L.Nodup) (hq : q ∈ L) (h1 : g q = 1) (h0 : ∀ x ∈ L, x ≠ q → g x = 0) :
    (L.map g).sum = 1 := by
  induction L with
  | nil => exact absurd hq (by simp)
  | cons x xs ih =>
      rw [List.map_cons, List.sum_cons]
      by_cases hx : x = q
      · subst hx
        have hnotin : x ∉ xs := (List.nodup_cons.mp hnd).1
        have hz : (xs.map g).sum = 0 :=
          List.sum_eq_zero (fun y hy => by
            obtain ⟨z, hz, hyz⟩ := List.mem_map.mp hy
            rw [← hyz]
            exact h0 z (List.mem_cons_of_mem _ hz) (fun hzq => hnotin (hzq ▸ hz)))
        rw [h1, hz]
      · have hmem : q ∈ xs := by
          rcases List.mem_cons.mp hq with h | h
          · exact absurd h.symm hx
          · exact h
        rw [h0 x (List.mem_cons_self _ _) hx,
          ih (List.nodup_cons.mp hnd).2 hmem (fun y hy => h0 y (List.mem_cons_of_mem _ hy))]

lemma sum_map_const_nat {α : Type} (L : List α) (n : ℕ) :
    (L.map fun _ => n).sum = L.length * n := by
  induction L with
  | nil => simp
  | cons x xs ih => simp [ih, Nat.succ_mul, Nat.add_comm]

lemma lookupTbl_map_keys {α : Type} (g : String → α) (keys : List String) (k : String) :
    lookupTbl (keys.map fun a => (a, g a)) k = if k ∈ keys then some (g k) else none := by
  induction keys with
  | nil => simp [lookupTbl]
  | cons x xs ih =>
      unfold lookupTbl at ih ⊢
      rw [List.map_cons]
      by_cases hx : x = k
      · subst hx
        rw [List.find?_cons_of_pos _ (by simp)]
        simp
      · rw [List.find?_cons_of_neg _ (by simp [hx]), ih]
        have hkx : ¬ k = x := fun hk => hx hk.symm
        simp [hkx]

end Infrastructure

section Plumbing

@[simp] lemma mkBalRow_year_quarter (facts : List FactRow) (qts : List QRow)
    (lkpF : List LookupRow) (q a : String) :
    (mkBalRow facts qts lkpF q a).year_quarter = q := rfl

@[simp] lemma mkBalRow_lacode (facts : List FactRow) (qts : List QRow)
    (lkpF : List LookupRow) (q a : String) :
    (mkBalRow facts qts lkpF q a).lacode = a := rfl

@[simp] lemma mkARow_toBalRow (census : List CensusRow) (infl : List InflRow) (b : BalRow) :
    (mkARow census infl b).toBalRow = b := rfl

@[simp] lemma mkBRow_toARow (anch : ARow) (r : ARow) : (mkBRow anch r).toARow = r := rfl

@[simp] lemma finalize_toBRow (rows : List BRow) (rural : List RuralRow) (r : BRow) :
    (finalize rows rural r).toBRow = r := rfl

@[simp] lemma mkBalRow_la_total_volume (facts : List FactRow) (qts : List QRow)
    (lkpF : List LookupRow) (q a : String) :
    (mkBalRow facts qts lkpF q a).la_total_volume =
      PF.fillna0 (match findFact facts q a with
        | some x => x.la_total_volume | none => .nan) := rfl

@[simp] lemma mkBalRow_la_total_value (facts : List FactRow) (qts : List QRow)
    (lkpF : List LookupRow) (q a : String) :
    (mkBalRow facts qts lkpF q a).la_total_value =
      PF.fillna0 (match findFact facts q a with
        | some x => x.la_total_value | none => .nan) := rfl

@[simp] lemma mkBalRow_unique_providers (facts : List FactRow) (qts : List QRow)
    (lkpF : List LookupRow) (q a : String) :
    (mkBalRow facts qts lkpF q a).unique_providers =
      PF.fillna0 (match findFact facts q a with
        | some x => .num x.unique_providers | none => .nan) := rfl

@[simp] lemma mkBalRow_total_volume (facts : List FactRow) (qts : List QRow)
    (lkpF : List LookupRow) (q a : String) :
    (mkBalRow facts qts lkpF q a).total_volume =
      (match qts.find? (fun t => t.year_quarter = q) with
        | some t => t.total_volume | none => .nan) := rfl

@[simp] lemma mkBalRow_total_value (facts : List FactRow) (qts : List QRow)
    (lkpF : List LookupRow) (q a : String) :
    (mkBalRow facts qts lkpF q a).total_value =
      (match qts.find? (fun t => t.year_quarter = q) with
        | some t => t.total_value | none => .nan) := rfl

@[simp] lemma mkBalRow_total_unique_providers (facts : List FactRow) (qts : List QRow)
    (lkpF : List LookupRow) (q a : String) :
    (mkBalRow facts qts lkpF q a).total_unique_providers =
      (match qts.find? (fun t => t.year_quarter = q) with
        | some t => .num t.total_unique_providers | none => .nan) := rfl

@[simp] lemma mkARow_residents_total (census : List CensusRow) (infl : List InflRow)
    (b : BalRow) :
    (mkARow census infl b).residents_total =
      (match census.find? (fun c => c.lacode = b.lacode) with
        | some c => .num c.residents_total | none => .nan) := rfl

@[simp] lemma mkARow_index_15 (census : List CensusRow) (infl : List InflRow) (b : BalRow) :
    (mkARow census infl b).index_15 =
      (match infl.find? (fun i => i.year_quarter = b.year_quarter) with
        | some i => .num i.index_15 | none => .nan) := rfl

@[simp] lemma mkARow_adjusted_la_total_value (census : List CensusRow) (infl : List InflRow)
    (b : BalRow) :
    (mkARow census infl b).adjusted_la_total_value =
      PF.mul b.la_total_value (mkARow census infl b).index_15 := rfl

@[simp] lemma mkARow_adjusted_total_value (census : List CensusRow) (infl : List InflRow)
    (b : BalRow) :
    (mkARow census infl b).adjusted_total_value =
      PF.mul b.total_value (mkARow census infl b).index_15 := rfl

@[simp] lemma mkARow_val_vol (census : List CensusRow) (infl : List InflRow) (b : BalRow) :
    (mkARow census infl b).val_vol =
      PF.fillna0 (PF.div (mkARow census infl b).adjusted_total_value b.total_volume) := rfl

@[simp] lemma mkARow_la_val_vol (census : List CensusRow) (infl : List InflRow) (b : BalRow) :
    (mkARow census infl b).la_val_vol =
      PF.fillna0 (PF.div (mkARow census infl b).adjusted_la_total_value
        b.la_total_volume) := rfl

@[simp] lemma mkBRow_volume_index (anch : ARow) (r : ARow) :
    (mkBRow anch r).volume_index =
      PF.fillna0 (PF.mul (PF.div r.total_volume anch.total_volume) (.num 100)) := rfl

@[simp] lemma mkBRow_value_index (anch : ARow) (r : ARow) :
    (mkBRow anch r).value_index =
      PF.fillna0 (PF.mul (PF.div r.adjusted_total_value anch.adjusted_total_value)
        (.num 100)) := rfl

@[simp] lemma mkBRow_cases_index (anch : ARow) (r : ARow) :
    (mkBRow anch r).cases_index =
      PF.fillna0 (PF.mul (PF.div r.val_vol anch.val_vol) (.num 100)) := rfl

@[simp] lemma finalize_exposure (rows : List BRow) (rural : List RuralRow) (r : BRow) :
    (finalize rows rural r).exposure =
      (lookupTbl (exposureTable rows) r.lacode).getD .nan := rfl

@[simp] lemma finalize_desert (rows : List BRow) (rural : List RuralRow) (r : BRow) :
    (finalize rows rural r).desert = desertOf r := rfl

@[simp] lemma finalize_ever_desert (rows : List BRow) (rural : List RuralRow) (r : BRow) :
    (finalize rows rural r).ever_desert =
      (match lookupTbl (everDesertTable rows) r.lacode with
        | some n => PF.num n | none => PF.nan) := rfl

@[simp] lemma finalize_prop_zero (rows : List BRow) (rural : List RuralRow) (r : BRow) :
    (finalize rows rural r).prop_zero =
      (lookupTbl (propZeroTable rows) r.year_quarter).getD .nan := rfl

@[simp] lemma finalize_pop_zero (rows : List BRow) (rural : List RuralRow) (r : BRow) :
    (finalize rows rural r).pop_zero =
      (lookupTbl (popZeroTable rows) r.year_quarter).getD .nan := rfl

lemma balanced_flatMap_filter (facts : List FactRow) (qts : List QRow)
    (lkpF : List LookupRow) (Qs : List String) :
    ((Qs.flatMap fun q => (all_las lkpF).map fun a => mkBalRow facts qts lkpF q a).filter
        (fun r => inWindow r.year_quarter)) =
      (Qs.filter inWindow).flatMap fun q =>
        (all_las lkpF).map fun a => mkBalRow facts qts lkpF q a := by
  induction Qs with
  | nil => rfl
  | cons q Qs ih =>
      rw [List.flatMap_cons, List.filter_append, ih,
        filter_map_comm _ _ (fun _ => inWindow q) (fun a => by simp) _, List.filter_cons]
      by_cases hq : inWindow q = true
      · simp [hq, List.flatMap_cons]
      · have hq' : inWindow q = false := by simpa using hq
        simp [hq']

/-- The balanced panel is the window-filtered quarters × LA cross product. -/
lemma balanced_panel_eq (facts : List FactRow) (qts : List QRow) (lkpF : List LookupRow) :
    balanced_panel facts qts lkpF =
      ((all_quarters facts).filter inWindow).flatMap fun q =>
        (all_las lkpF).map fun a => mkBalRow facts qts lkpF q a :=
  balanced_flatMap_filter facts qts lkpF (all_quarters facts)

lemma mem_balanced_panel {facts : List FactRow} {qts : List QRow} {lkpF : List LookupRow}
    {r : BalRow} (hr : r ∈ balanced_panel facts qts lkpF) :
    ∃ q a, q ∈ all_quarters facts ∧ inWindow q = true ∧ a ∈ all_las lkpF ∧
      r = mkBalRow facts qts lkpF q a := by
  rw [balanced_panel_eq] at hr
  obtain ⟨q, hq, hr⟩ := List.mem_flatMap.mp hr
  obtain ⟨a, ha, hr⟩ := List.mem_map.mp hr
  exact ⟨q, a, (List.mem_filter.mp hq).1, (List.mem_filter.mp hq).2, ha, hr.symm⟩

lemma runPipeline_ok {I : Inputs} {res : RunResult} (h : runPipeline I = .ok res) :
    res.saved = savedOf I ∧ res.messages = finalCheckMessages (savedOf I) ∧
      ∃ anch, anchorOf I = some anch := by
  unfold runPipeline at h
  cases hcl : clean_data I.provider_data_raw with
  | error e => rw [hcl] at h; exact absurd h (by simp)
  | ok cl =>
      rw [hcl] at h
      have hclRows : clRows I = cl := by simp [clRows, hcl, Except.toOption]
      simp only [stageA] at h
      have hbal : balanced_panel (completed_la_totals cl) (quarterly_totals cl)
          (la_lookup_filtered I.la_lookup) = balOf I := by
        rw [balOf, factsOf, qtsOf, hclRows]
      rw [hbal] at h
      have haRows : (balOf I).map (mkARow I.census_data I.inflation_data) = aRowsOf I := rfl
      rw [haRows] at h
      cases hanch : (aRowsOf I).find? (fun r => r.year_quarter = "2012-q4") with
      | none => rw [hanch] at h; exact absurd h (by simp)
      | some anch =>
          rw [hanch] at h
          dsimp only at h
          have hanchOf : anchorOf I = some anch := by rw [anchorOf, hanch]
          have hbrows : (aRowsOf I).map (mkBRow anch) = bRowsOf I := by
            rw [bRowsOf, hanchOf]
          rw [hbrows] at h
          unfold stageB at h
          by_cases hmiss : (bRowsOf I).any
              (fun r => ((I.rural_urban).find? (fun u => u.code = r.lacode)).isNone) = true
          · rw [if_pos hmiss] at h; exact absurd h (by simp)
          · rw [if_neg hmiss] at h
            have hres := (Except.ok.injEq _ _).mp h
            have hS : savedOf I = (bRowsOf I).map (finalize (bRowsOf I) I.rural_urban) := rfl
            refine ⟨?_, ?_, anch, hanchOf⟩
            · rw [← hres, hS]
            · rw [← hres, hS]

lemma mem_savedOf {I : Inputs} {r : FinalRow} (hr : r ∈ savedOf I) :
    ∃ br, br ∈ bRowsOf I ∧ r = finalize (bRowsOf I) I.rural_urban br := by
  obtain ⟨br, hbr, hr⟩ := List.mem_map.mp hr
  exact ⟨br, hbr, hr.symm⟩

lemma mem_bRowsOf {I : Inputs} {br : BRow} (hbr : br ∈ bRowsOf I) :
    ∃ anch ar, anchorOf I = some anch ∧ ar ∈ aRowsOf I ∧ br = mkBRow anch ar := by
  unfold bRowsOf at hbr
  cases hanch : anchorOf I with
  | none => rw [hanch] at hbr; exact absurd hbr (by simp)
  | some anch =>
      rw [hanch] at hbr
      obtain ⟨ar, har, hbr⟩ := List.mem_map.mp hbr
      exact ⟨anch, ar, rfl, har, hbr.symm⟩

lemma mem_aRowsOf {I : Inputs} {ar : ARow} (har : ar ∈ aRowsOf I) :
    ∃ b, b ∈ balOf I ∧ ar = mkARow I.census_data I.inflation_data b := by
  obtain ⟨b, hb, har⟩ := List.mem_map.mp har
  exact ⟨b, hb, har.symm⟩

lemma bRow_decomp {I : Inputs} {br : BRow} (hbr : br ∈ bRowsOf I) :
    ∃ anch q a, anchorOf I = some anch ∧
      q ∈ all_quarters (factsOf I) ∧ inWindow q = true ∧
      a ∈ all_las (la_lookup_filtered I.la_lookup) ∧
      br = mkBRow anch (mkARow I.census_data I.inflation_data
        (mkBalRow (factsOf I) (qtsOf I) (la_lookup_filtered I.la_lookup) q a)) := by
  obtain ⟨anch, ar, hanch, har, hbre⟩ := mem_bRowsOf hbr
  obtain ⟨b, hb, hare⟩ := mem_aRowsOf har
  obtain ⟨q, a, hq, hw, ha, hbe⟩ := mem_balanced_panel hb
  exact ⟨anch, q, a, hanch, hq, hw, ha, by rw [hbre, hare, hbe]⟩

lemma saved_row_decomp {I : Inputs} {r : FinalRow} (hr : r ∈ savedOf I) :
    ∃ anch q a br, anchorOf I = some anch ∧
      q ∈ all_quarters (factsOf I) ∧ inWindow q = true ∧
      a ∈ all_las (la_lookup_filtered I.la_lookup) ∧
      br ∈ bRowsOf I ∧
      br = mkBRow anch (mkARow I.census_data I.inflation_data
        (mkBalRow (factsOf I) (qtsOf I) (la_lookup_filtered I.la_lookup) q a)) ∧
      r = finalize (bRowsOf I) I.rural_urban br := by
  obtain ⟨br, hbr, hre⟩ := mem_savedOf hr
  obtain ⟨anch, q, a, hanch, hq, hw, ha, hbre⟩ := bRow_decomp hbr
  exact ⟨anch, q, a, br, hanch, hq, hw, ha, hbr, hbre, hre⟩

lemma saved_fields_by_quarter {I : Inputs} {r : FinalRow} (hr : r ∈ savedOf I) :
    r.total_volume = (match (qtsOf I).find? (fun t => t.year_quarter = r.year_quarter) with
      | some t => t.total_volume | none => PF.nan)
    ∧ r.total_value = (match (qtsOf I).find? (fun t => t.year_quarter = r.year_quarter) with
      | some t => t.total_value | none => PF.nan)
    ∧ r.total_unique_providers =
      (match (qtsOf I).find? (fun t => t.year_quarter = r.year_quarter) with
        | some t => PF.num t.total_unique_providers | none => PF.nan)
    ∧ r.index_15 = (match I.inflation_data.find? (fun i => i.year_quarter = r.year_quarter) with
      | some i => PF.num i.index_15 | none => PF.nan)
    ∧ r.prop_zero = (lookupTbl (propZeroTable (bRowsOf I)) r.year_quarter).getD PF.nan
    ∧ r.pop_zero = (lookupTbl (popZeroTable (bRowsOf I)) r.year_quarter).getD PF.nan
    ∧ r.adjusted_total_value = PF.mul
        (match (qtsOf I).find? (fun t => t.year_quarter = r.year_quarter) with
          | some t => t.total_value | none => PF.nan)
        (match I.inflation_data.find? (fun i => i.year_quarter = r.year_quarter) with
          | some i => PF.num i.index_15 | none => PF.nan)
    ∧ r.val_vol = PF.fillna0 (PF.div r.adjusted_total_value r.total_volume) := by
  obtain ⟨anch, q, a, br, hanch, hq, hw, ha, hbr, hbre, hre⟩ := saved_row_decomp hr
  subst hre
  subst hbre
  simp only [finalize_toBRow, mkBRow_toARow, mkARow_toBalRow, mkBalRow_year_quarter,
    mkBalRow_total_volume, mkBalRow_total_value, mkBalRow_total_unique_providers,
    mkARow_index_15, finalize_prop_zero, finalize_pop_zero, mkARow_adjusted_total_value,
    mkARow_val_vol]
  simp

lemma saved_ratio_fields {I : Inputs} {r : FinalRow} (hr : r ∈ savedOf I) :
    r.la_val_vol = PF.fillna0 (PF.div r.adjusted_la_total_value r.la_total_volume)
    ∧ r.val_vol = PF.fillna0 (PF.div r.adjusted_total_value r.total_volume) := by
  obtain ⟨anch, q, a, br, hanch, hq, hw, ha, hbr, hbre, hre⟩ := saved_row_decomp hr
  subst hre
  subst hbre
  simp only [finalize_toBRow, mkBRow_toARow, mkARow_toBalRow, mkARow_val_vol,
    mkARow_la_val_vol]
  simp

lemma saved_index_fields {I : Inputs} {r : FinalRow} {anch : ARow}
    (hr : r ∈ savedOf I) (hanch : anchorOf I = some anch) :
    r.volume_index = PF.fillna0 (PF.mul (PF.div r.total_volume anch.total_volume) (.num 100))
    ∧ r.value_index = PF.fillna0
        (PF.mul (PF.div r.adjusted_total_value anch.adjusted_total_value) (.num 100))
    ∧ r.cases_index = PF.fillna0 (PF.mul (PF.div r.val_vol anch.val_vol) (.num 100)) := by
  obtain ⟨anch2, q, a, br, hanch2, hq, hw, ha, hbr, hbre, hre⟩ := saved_row_decomp hr
  have : anch2 = anch := by
    rw [hanch] at hanch2
    exact (Option.some.injEq _ _).mp hanch2.symm
  subst this
  subst hre
  subst hbre
  simp only [finalize_toBRow, mkBRow_toARow, mkBRow_volume_index, mkBRow_value_index,
    mkBRow_cases_index]
  simp

lemma saved_desert_exposure_fields {I : Inputs} {r : FinalRow} (hr : r ∈ savedOf I) :
    r.desert = (if r.unique_providers = PF.num 0 then 1 else 0)
    ∧ r.ever_desert = (match lookupTbl (everDesertTable (bRowsOf I)) r.lacode with
        | some n => PF.num n | none => PF.nan)
    ∧ r.exposure = (lookupTbl (exposureTable (bRowsOf I)) r.lacode).getD PF.nan := by
  obtain ⟨anch, q, a, br, hanch, hq, hw, ha, hbr, hbre, hre⟩ := saved_row_decomp hr
  subst hre
  simp only [finalize_toBRow, finalize_desert, finalize_ever_desert, finalize_exposure,
    desertOf]
  simp

lemma aRow_quarter_fields {I : Inputs} {ar : ARow} (har : ar ∈ aRowsOf I) :
    ar.total_volume = (match (qtsOf I).find? (fun t => t.year_quarter = ar.year_quarter) with
      | some t => t.total_volume | none => PF.nan)
    ∧ ar.adjusted_total_value = PF.mul
        (match (qtsOf I).find? (fun t => t.year_quarter = ar.year_quarter) with
          | some t => t.total_value | none => PF.nan)
        (match I.inflation_data.find? (fun i => i.year_quarter = ar.year_quarter) with
          | some i => PF.num i.index_15 | none => PF.nan)
    ∧ ar.val_vol = PF.fillna0 (PF.div ar.adjusted_total_value ar.total_volume) := by
  obtain ⟨b, hb, hare⟩ := mem_aRowsOf har
  obtain ⟨q, a, hq, hw, ha, hbe⟩ := mem_balanced_panel hb
  subst hare
  subst hbe
  simp only [mkARow_toBalRow, mkBalRow_year_quarter, mkBalRow_total_volume,
    mkBalRow_total_value, mkARow_adjusted_total_value, mkARow_index_15, mkARow_val_vol]
  simp

lemma mem_saved_of_mem_bRows {I : Inputs} {br : BRow} (hbr : br ∈ bRowsOf I) :
    finalize (bRowsOf I) I.rural_urban br ∈ savedOf I :=
  List.mem_map_of_mem _ hbr

lemma clRows_lacode {I : Inputs} {c : CleanRow} (hc : c ∈ clRows I) :
    ∃ rec ∈ I.provider_data_raw, c.lacode = rec.lacode := by
  unfold clRows at hc
  cases hcl : clean_data I.provider_data_raw with
  | error e => rw [hcl] at hc; exact absurd hc (by simp [Except.toOption])
  | ok cl =>
      rw [hcl] at hc
      simp only [Except.toOption, Option.getD_some] at hc
      unfold clean_data at hcl
      by_cases hbad : I.provider_data_raw.any (fun r => (year_quarter_of r).isNone) = true
      · rw [if_pos hbad] at hcl
        exact absurd hcl (by simp)
      · rw [if_neg hbad] at hcl
        have hcm : cl = I.provider_data_raw.map cleanRowOf :=
          ((Except.ok.injEq _ _).mp hcl).symm
        subst hcm
        obtain ⟨rec, hrec, hcrec⟩ := List.mem_map.mp hc
        exact ⟨rec, hrec, by rw [← hcrec]; rfl⟩

lemma fact_lacode {rows : List CleanRow} {fr : FactRow}
    (hfr : fr ∈ completed_la_totals rows) : ∃ c ∈ rows, fr.lacode = c.lacode := by
  unfold completed_la_totals at hfr
  obtain ⟨k, hk, rfl⟩ := List.mem_map.mp hfr
  have hk2 : k ∈ rows.map (fun r => (r.year_quarter, r.lacode)) := mem_sortedKeys.mp hk
  obtain ⟨c, hc, hkc⟩ := List.mem_map.mp hk2
  exact ⟨c, hc, by rw [← hkc]⟩

lemma foldr_max_all_one {l : List ℕ} (h1 : ∀ x ∈ l, x = 1) (hne : l ≠ []) :
    l.foldr Nat.max 0 = 1 := by
  induction l with
  | nil => exact absurd rfl hne
  | cons x xs ih =>
      rw [List.foldr_cons, h1 x (List.mem_cons_self _ _)]
      by_cases hxs : xs = []
      · subst hxs
        rfl
      · rw [ih (fun y hy => h1 y (List.mem_cons_of_mem _ hy)) hxs]
        rfl

end Plumbing

section Claims

/-- C3: the Period derivation maps a financial-year/financial-quarter pair via
{Q1→Q2, Q2→Q3, Q3→Q4, Q4→Q1 of the next calendar year}; in particular a case
record with financial year "2012/13" and financial quarter 4 derives the
canonical Period "2013-q1". -/
theorem claim_C3_period_mapping (r : RawRecord) (y : ℚ) (hy : fy_start r = PF.num y) :
    (toNumeric r.fq = PF.num 1 → cal_q r = PF.num 2 ∧ cal_year r = PF.num y)
    ∧ (toNumeric r.fq = PF.num 2 → cal_q r = PF.num 3 ∧ cal_year r = PF.num y)
    ∧ (toNumeric r.fq = PF.num 3 → cal_q r = PF.num 4 ∧ cal_year r = PF.num y)
    ∧ (toNumeric r.fq = PF.num 4 → cal_q r = PF.num 1 ∧ cal_year r = PF.num (y + 1))
    ∧ (r.fy = "2012/13" → r.fq = "4" → year_quarter_of r = some "2013-q1") := by
  refine ⟨?_, ?_, ?_, ?_, ?_⟩
  · intro hfq
    refine ⟨by norm_num [cal_q, hfq, FQ_TO_CAL_Q], ?_⟩
    norm_num [cal_year, hy, hfq, PF.add]
  · intro hfq
    refine ⟨by norm_num [cal_q, hfq, FQ_TO_CAL_Q], ?_⟩
    norm_num [cal_year, hy, hfq, PF.add]
  · intro hfq
    refine ⟨by norm_num [cal_q, hfq, FQ_TO_CAL_Q], ?_⟩
    norm_num [cal_year, hy, hfq, PF.add]
  · intro hfq
    refine ⟨by norm_num [cal_q, hfq, FQ_TO_CAL_Q], ?_⟩
    norm_num [cal_year, hy, hfq, PF.add]
  · intro hfy hfq
    rw [year_quarter_of, cal_year, cal_q, fy_start, hfy, hfq]
    with_unfolding_all rfl

/-- Witness for C3 at the record (fy "2012/13", fq 4). -/
theorem claim_C3_period_mapping_witness :
    fy_start recC3 = PF.num 2012 ∧ year_quarter_of recC3 = some "2013-q1" :=
  ⟨by with_unfolding_all rfl,
   (claim_C3_period_mapping recC3 2012 (by with_unfolding_all rfl)).2.2.2.2 rfl rfl⟩

/-- C4 (code bug): the cleaning stage is supposed to coerce non-numeric
year/quarter fields to a null marker without raising, but the vectorised
`astype(int)` in the `year_quarter` construction raises on the resulting NaN:
a single record with a non-numeric financial quarter (or year) aborts the
whole pipeline. Only a non-numeric value field is actually coerced benignly
(and that record still contributes its volume and provider to aggregation). -/
theorem claim_C4_unparseable_fields :
    clean_data [recBadFq] =
      .error "ValueError: Cannot convert non-finite values (NA or inf) to integer"
    ∧ clean_data [recBadFy] =
      .error "ValueError: Cannot convert non-finite values (NA or inf) to integer"
    ∧ clean_data [recBadValue] =
      .ok [{ volume := .num 1, value := .nan, lacode := "E1", firm_code := "f1",
             year_quarter := "2012-q4" }] :=
  ⟨by with_unfolding_all rfl, by with_unfolding_all rfl, by with_unfolding_all rfl⟩

/-- C2 (counterexample): with case records only in `2015-q3`, the area `E1`
is in the filtered lookup and `2010-q1` is in the window, yet the balanced
panel has no (E1, 2010-q1) row at all and only 1 row in total (the claim
predicts |Areas| × |Periods in window| = 1 × 40 = 40). -/
theorem claim_C2_counterexample :
    inWindow "2010-q1" = true
    ∧ "E1" ∈ all_las (la_lookup_filtered exC2lkp)
    ∧ ((balanced_panel exC2facts exC2qts (la_lookup_filtered exC2lkp)).countP
        (fun r => r.year_quarter = "2010-q1" ∧ r.lacode = "E1")) = 0
    ∧ (balanced_panel exC2facts exC2qts (la_lookup_filtered exC2lkp)).length = 1 :=
  ⟨by with_unfolding_all rfl, of_decide_eq_true (by with_unfolding_all rfl),
   by with_unfolding_all rfl, by with_unfolding_all rfl⟩

/-- C2 (amended): for every Area in the filtered lookup and every Period that
is present in the aggregated facts and lies in the 2010-q1..2019-q4 window,
the balanced panel has exactly one (Area, Period) row; the total row count is
|Areas| × |fact Periods in window|; and the three facts columns are never
null. -/
theorem claim_C2_balanced_panel (facts : List FactRow) (qts : List QRow)
    (lkp : List LookupRow) (q a : String)
    (hq : q ∈ all_quarters facts) (hw : inWindow q = true)
    (ha : a ∈ all_las (la_lookup_filtered lkp)) :
    ((balanced_panel facts qts (la_lookup_filtered lkp)).countP
        (fun r => r.year_quarter = q ∧ r.lacode = a)) = 1
    ∧ (balanced_panel facts qts (la_lookup_filtered lkp)).length =
        ((all_quarters facts).filter inWindow).length *
          (all_las (la_lookup_filtered lkp)).length
    ∧ ∀ r ∈ balanced_panel facts qts (la_lookup_filtered lkp),
        r.la_total_volume.isNan = false ∧ r.la_total_value.isNan = false ∧
          r.unique_providers.isNan = false := by
  refine ⟨?_, ?_, ?_⟩
  · rw [balanced_panel_eq, countP_flatMap]
    have hnodL : ((all_quarters facts).filter inWindow).Nodup :=
      (nodup_sortedKeys _ _).filter _
    have hnodA : (all_las (la_lookup_filtered lkp)).Nodup := nodup_sortedKeys _ _
    have hqL : q ∈ (all_quarters facts).filter inWindow := List.mem_filter.mpr ⟨hq, hw⟩
    refine sum_map_eq_one hnodL hqL ?_ ?_
    · rw [List.countP_map]
      have hcong : ∀ x ∈ all_las (la_lookup_filtered lkp),
          (((fun r : BalRow => decide (r.year_quarter = q ∧ r.lacode = a)) ∘
            (fun a' => mkBalRow facts qts (la_lookup_filtered lkp) q a')) x = true ↔
          (fun x => decide (x = a)) x = true) := by
        intro x _
        simp
      rw [List.countP_congr hcong]
      exact countP_eq_one_of_nodup_mem hnodA ha
    · intro q' _ hq'
      rw [List.countP_map]
      refine List.countP_eq_zero.mpr ?_
      intro a' _
      simp only [Function.comp_apply, mkBalRow_year_quarter, mkBalRow_lacode,
        decide_eq_true_eq]
      exact fun hc => hq' hc.1
  · rw [balanced_panel_eq, List.length_flatMap]
    have hlen : ∀ x ∈ (all_quarters facts).filter inWindow,
        (List.length ∘ fun q =>
          List.map (fun a => mkBalRow facts qts (la_lookup_filtered lkp) q a)
            (all_las (la_lookup_filtered lkp))) x =
        (fun _ => (all_las (la_lookup_filtered lkp)).length) x := by
      intro x _
      simp
    rw [List.map_congr_left hlen, sum_map_const_nat]
  · intro r hr
    obtain ⟨q', a', _, _, _, hreq⟩ := mem_balanced_panel hr
    subst hreq
    exact ⟨fillna0_isNan _, fillna0_isNan _, fillna0_isNan _⟩

/-- Witness for C2 (amended) at the concrete single-quarter inputs. -/
theorem claim_C2_balanced_panel_witness :
    ((balanced_panel exC2facts exC2qts (la_lookup_filtered exC2lkp)).countP
        (fun r => r.year_quarter = "2015-q3" ∧ r.lacode = "E1")) = 1 :=
  (claim_C2_balanced_panel exC2facts exC2qts exC2lkp "2015-q3" "E1"
    (of_decide_eq_true (by with_unfolding_all rfl))
    (by with_unfolding_all rfl)
    (of_decide_eq_true (by with_unfolding_all rfl))).1

/-- C7: a (Area, Period) cell of the balanced panel with no matching fact row
carries structural zeros (volume, value, providers all 0, never null); and an
Area with no case record at all appears in every final-panel row with zeros,
desert = 1 and ever_desert = 1. -/
theorem claim_C7_structural_zeros :
    (∀ (facts : List FactRow) (qts : List QRow) (lkpF : List LookupRow),
       ∀ r ∈ balanced_panel facts qts lkpF,
         findFact facts r.year_quarter r.lacode = none →
           r.la_total_volume = PF.num 0 ∧ r.la_total_value = PF.num 0 ∧
             r.unique_providers = PF.num 0)
    ∧ ∀ (I : Inputs) (res : RunResult) (a : String),
        runPipeline I = .ok res →
        (∀ rec ∈ I.provider_data_raw, rec.lacode ≠ a) →
        ∀ r ∈ res.saved, r.lacode = a →
          r.la_total_volume = PF.num 0 ∧ r.la_total_value = PF.num 0 ∧
            r.unique_providers = PF.num 0 ∧ r.desert = 1 ∧ r.ever_desert = PF.num 1 := by
  constructor
  · intro facts qts lkpF r hr hnone
    obtain ⟨q, a, hq, hw, ha, hre⟩ := mem_balanced_panel hr
    subst hre
    simp only [mkBalRow_year_quarter, mkBalRow_lacode] at hnone
    simp [hnone, PF.fillna0]
  · intro I res a hrun hno r hrmem hlac
    obtain ⟨hsv, -, -⟩ := runPipeline_ok hrun
    rw [hsv] at hrmem
    have hfact : ∀ fr ∈ factsOf I, fr.lacode ≠ a := by
      intro fr hfr
      obtain ⟨c, hc, hcl⟩ := fact_lacode hfr
      obtain ⟨rec, hrec, hrl⟩ := clRows_lacode hc
      rw [hcl, hrl]
      exact hno rec hrec
    have hbz : ∀ br ∈ bRowsOf I, br.lacode = a →
        br.la_total_volume = PF.num 0 ∧ br.la_total_value = PF.num 0 ∧
          br.unique_providers = PF.num 0 := by
      intro br hbr hbl
      obtain ⟨anch, q, a2, hanch, hq, hw, ha2, hbre⟩ := bRow_decomp hbr
      have ha2a : a2 = a := by
        rw [hbre] at hbl
        simpa using hbl
      subst ha2a
      subst hbre
      have hnone : findFact (factsOf I) q a2 = none := by
        refine List.find?_eq_none.mpr ?_
        intro f hf
        simp only [decide_eq_true_eq, not_and]
        exact fun _ => hfact f hf
      simp [hnone, PF.fillna0]
    obtain ⟨br, hbr, hre⟩ := mem_savedOf hrmem
    have hbl : br.lacode = a := by
      rw [hre] at hlac
      simpa using hlac
    obtain ⟨hz1, hz2, hz3⟩ := hbz br hbr hbl
    obtain ⟨hdes, hever, -⟩ := saved_desert_exposure_fields hrmem
    refine ⟨?_, ?_, ?_, ?_, ?_⟩
    · rw [hre]
      simpa using hz1
    · rw [hre]
      simpa using hz2
    · rw [hre]
      simpa using hz3
    · rw [hdes]
      have : r.unique_providers = PF.num 0 := by
        rw [hre]
        simpa using hz3
      rw [this]
      simp
    · rw [hever]
      have hrl : r.lacode = a := hlac
      rw [hrl]
      unfold everDesertTable
      rw [lookupTbl_map_keys]
      have hmem : a ∈ sortedKeys pyLe ((bRowsOf I).map (·.lacode)) :=
        mem_sortedKeys.mpr (List.mem_map.mpr ⟨br, hbr, hbl⟩)
      rw [if_pos hmem]
      have hall : ∀ x ∈ ((bRowsOf I).filter (fun x => x.lacode = a)).map desertOf, x = 1 := by
        intro x hx
        obtain ⟨y, hy, hyx⟩ := List.mem_map.mp hx
        have hy2 := List.mem_filter.mp hy
        have hyl : y.lacode = a := by simpa using hy2.2
        obtain ⟨-, -, hz⟩ := hbz y hy2.1 hyl
        rw [← hyx]
        simp [desertOf, hz]
      have hne : ((bRowsOf I).filter (fun x => x.lacode = a)).map desertOf ≠ [] := by
        have : br ∈ (bRowsOf I).filter (fun x => x.lacode = a) :=
          List.mem_filter.mpr ⟨hbr, by simpa using hbl⟩
        intro hnil
        rw [List.map_eq_nil_iff] at hnil
        rw [hnil] at this
        exact absurd this (by simp)
      rw [foldr_max_all_one hall hne]
      simp

/-- Witness for C7 at inputs where LA `E2` has no case record. -/
theorem claim_C7_structural_zeros_witness :
    rowC7.la_total_volume = PF.num 0 ∧ rowC7.la_total_value = PF.num 0 ∧
      rowC7.unique_providers = PF.num 0 ∧ rowC7.desert = 1 ∧
      rowC7.ever_desert = PF.num 1 :=
  claim_C7_structural_zeros.2 exC7 resC7 "E2" (by with_unfolding_all rfl)
    (of_decide_eq_true (by with_unfolding_all rfl))
    rowC7 (of_decide_eq_true (by with_unfolding_all rfl))
    (by with_unfolding_all rfl)

/-- C9: every Period-keyed column of the final panel — the national totals
`total_volume`, `total_value`, `total_unique_providers`, the inflation index
`index_15`, and the desert share `prop_zero` — takes the same value on any
two rows that share a Period. -/
theorem claim_C9_period_columns (I : Inputs) (res : RunResult)
    (h : runPipeline I = .ok res) :
    ∀ r1 ∈ res.saved, ∀ r2 ∈ res.saved, r1.year_quarter = r2.year_quarter →
      r1.total_volume = r2.total_volume ∧ r1.total_value = r2.total_value ∧
        r1.total_unique_providers = r2.total_unique_providers ∧
        r1.index_15 = r2.index_15 ∧ r1.prop_zero = r2.prop_zero := by
  intro r1 h1 r2 h2 hq
  obtain ⟨hsv, -, -⟩ := runPipeline_ok h
  rw [hsv] at h1 h2
  obtain ⟨e1a, e1b, e1c, e1d, e1e, -⟩ := saved_fields_by_quarter h1
  obtain ⟨e2a, e2b, e2c, e2d, e2e, -⟩ := saved_fields_by_quarter h2
  rw [e1a, e1b, e1c, e1d, e1e, e2a, e2b, e2c, e2d, e2e, hq]
  exact ⟨rfl, rfl, rfl, rfl, rfl⟩

/-- Witness for C9 at two rows (areas E1 and E2) of the same quarter. -/
theorem claim_C9_period_columns_witness :
    rowC9a.total_volume = rowC9b.total_volume ∧
      rowC9a.total_value = rowC9b.total_value ∧
      rowC9a.total_unique_providers = rowC9b.total_unique_providers ∧
      rowC9a.index_15 = rowC9b.index_15 ∧ rowC9a.prop_zero = rowC9b.prop_zero :=
  claim_C9_period_columns exC9 resC9 (by with_unfolding_all rfl) rowC9a
    (of_decide_eq_true (by with_unfolding_all rfl)) rowC9b
    (of_decide_eq_true (by with_unfolding_all rfl)) (by with_unfolding_all rfl)

/-- C10: in any Period where no Area is flagged as a desert, the merged
`pop_zero` column is the missing marker (NaN) on every row of that Period —
the per-Period population sum exists only for Periods with desert rows and
comes back through a left join. -/
theorem claim_C10_pop_zero_missing (I : Inputs) (res : RunResult) (P : String)
    (h : runPipeline I = .ok res)
    (hnod : ∀ r ∈ res.saved, r.year_quarter = P → r.desert = 0) :
    ∀ r ∈ res.saved, r.year_quarter = P → r.pop_zero = PF.nan := by
  intro r hr hP
  obtain ⟨hsv, -, -⟩ := runPipeline_ok h
  rw [hsv] at hr
  have hpz := (saved_fields_by_quarter hr).2.2.2.2.2.1
  rw [hpz, hP]
  have hkey : P ∉ (((bRowsOf I).filter (fun x => desertOf x = 1)).map (·.year_quarter)) := by
    intro hmem
    obtain ⟨x, hx, hxq⟩ := List.mem_map.mp hmem
    have hx2 := List.mem_filter.mp hx
    have hdes : desertOf x = 1 := by simpa using hx2.2
    have hmemS : finalize (bRowsOf I) I.rural_urban x ∈ res.saved := by
      rw [hsv]
      exact mem_saved_of_mem_bRows hx2.1
    have hq2 : (finalize (bRowsOf I) I.rural_urban x).year_quarter = P := by simpa using hxq
    have h0 := hnod _ hmemS hq2
    rw [finalize_desert, hdes] at h0
    exact absurd h0 (by simp)
  simp only [popZeroTable]
  rw [lookupTbl_map_keys]
  rw [if_neg (fun hmem => hkey (mem_sortedKeys.mp hmem))]
  rfl

/-- Witness for C10 at inputs whose only quarter has a provider in every LA. -/
theorem claim_C10_pop_zero_missing_witness :
    rowC10.pop_zero = PF.nan :=
  claim_C10_pop_zero_missing exC10 resC10 "2012-q4" (by with_unfolding_all rfl)
    (of_decide_eq_true (by with_unfolding_all rfl)) rowC10
    (of_decide_eq_true (by with_unfolding_all rfl)) (by with_unfolding_all rfl)

/-- C5 (counterexample): a cell holding one record of volume 0 and value 10
has `la_total_volume = 0` but `la_val_vol = inf` (and likewise nationally):
pandas `10/0` is infinity and `fillna(0)` only replaces NaN, so the ratio is
not 0 when the volume is 0 but the value is not. -/
theorem claim_C5_counterexample :
    runPipeline exC5 = .ok resC5 ∧ rowC5 ∈ resC5.saved ∧
      rowC5.la_total_volume = PF.num 0 ∧ rowC5.la_val_vol = PF.inf ∧
      rowC5.total_volume = PF.num 0 ∧ rowC5.val_vol = PF.inf :=
  ⟨by with_unfolding_all rfl, of_decide_eq_true (by with_unfolding_all rfl),
   by with_unfolding_all rfl, by with_unfolding_all rfl,
   by with_unfolding_all rfl, by with_unfolding_all rfl⟩

/-- C5 (amended): the value-per-volume ratios equal `fillna0` of adjusted
value over volume at both granularities; when the volume is 0 the ratio is 0
exactly when the adjusted value is 0 or null (`0/0 = NaN`, replaced by
`fillna(0)`), and is a signed infinity — not 0 — when the adjusted value is a
nonzero number. -/
theorem claim_C5_val_vol (I : Inputs) (res : RunResult) (h : runPipeline I = .ok res) :
    ∀ r ∈ res.saved,
      r.la_val_vol = PF.fillna0 (PF.div r.adjusted_la_total_value r.la_total_volume)
      ∧ r.val_vol = PF.fillna0 (PF.div r.adjusted_total_value r.total_volume)
      ∧ (r.la_total_volume = PF.num 0 →
          ((r.adjusted_la_total_value = PF.num 0 ∨ r.adjusted_la_total_value = PF.nan →
              r.la_val_vol = PF.num 0)
            ∧ ∀ v : ℚ, r.adjusted_la_total_value = PF.num v → v ≠ 0 →
                (r.la_val_vol = PF.inf ∨ r.la_val_vol = PF.ninf)))
      ∧ (r.total_volume = PF.num 0 →
          ((r.adjusted_total_value = PF.num 0 ∨ r.adjusted_total_value = PF.nan →
              r.val_vol = PF.num 0)
            ∧ ∀ v : ℚ, r.adjusted_total_value = PF.num v → v ≠ 0 →
                (r.val_vol = PF.inf ∨ r.val_vol = PF.ninf))) := by
  intro r hr
  obtain ⟨hsv, -, -⟩ := runPipeline_ok h
  rw [hsv] at hr
  obtain ⟨hla, hv⟩ := saved_ratio_fields hr
  refine ⟨hla, hv, ?_, ?_⟩
  · intro hvol
    constructor
    · rintro (hz | hz) <;> rw [hla, hvol, hz] <;> simp [PF.div, PF.fillna0]
    · intro v hval hvne
      rw [hla, hvol, hval]
      by_cases hpos : 0 < v
      · left
        simp [PF.div, PF.fillna0, hvne, hpos]
      · right
        simp [PF.div, PF.fillna0, hvne, hpos]
  · intro hvol
    constructor
    · rintro (hz | hz) <;> rw [hv, hvol, hz] <;> simp [PF.div, PF.fillna0]
    · intro v hval hvne
      rw [hv, hvol, hval]
      by_cases hpos : 0 < v
      · left
        simp [PF.div, PF.fillna0, hvne, hpos]
      · right
        simp [PF.div, PF.fillna0, hvne, hpos]

/-- Witness for C5 (amended) at the volume-0/value-10 inputs. -/
theorem claim_C5_val_vol_witness :
    rowC5.la_val_vol =
      PF.fillna0 (PF.div rowC5.adjusted_la_total_value rowC5.la_total_volume) ∧
    (rowC5.la_val_vol = PF.inf ∨ rowC5.la_val_vol = PF.ninf) := by
  have h := claim_C5_val_vol exC5 resC5 (by with_unfolding_all rfl) rowC5
    (of_decide_eq_true (by with_unfolding_all rfl))
  exact ⟨h.1, (h.2.2.1 (by with_unfolding_all rfl)).2 10 (by with_unfolding_all rfl)
    (by norm_num)⟩

/-- C6 (counterexample): with anchor-quarter national volume 0 and `2013-q1`
volume 5, the rebased volume index at `2013-q1` is infinity, not 0 — the
claim's "the rebased index equals 0 wherever the anchor value itself is zero"
fails off the anchor row. -/
theorem claim_C6_counterexample :
    runPipeline exC6 = .ok resC6 ∧
      resC6.saved.map (fun r => (r.year_quarter, r.total_volume, r.volume_index)) =
        [("2012-q4", PF.num 0, PF.num 0), ("2013-q1", PF.num 5, PF.inf)] :=
  ⟨by with_unfolding_all rfl, by with_unfolding_all rfl⟩

/-- C6 (amended): at the anchor period `2012-q4` itself each rebased index is
exactly 100 when the anchor value is a nonzero number and 0 when it is zero;
and any row whose series value is null gets index 0. (When the anchor is zero
and a row's series value is nonzero, the index is infinite, per the
counterexample.) -/
theorem claim_C6_rebased_anchor (I : Inputs) (res : RunResult)
    (h : runPipeline I = .ok res) :
    ∀ r ∈ res.saved,
      (r.year_quarter = "2012-q4" →
        (∀ v : ℚ, r.total_volume = PF.num v → v ≠ 0 → r.volume_index = PF.num 100)
        ∧ (r.total_volume = PF.num 0 → r.volume_index = PF.num 0)
        ∧ (∀ v : ℚ, r.adjusted_total_value = PF.num v → v ≠ 0 →
            r.value_index = PF.num 100)
        ∧ (r.adjusted_total_value = PF.num 0 → r.value_index = PF.num 0)
        ∧ (∀ v : ℚ, r.val_vol = PF.num v → v ≠ 0 → r.cases_index = PF.num 100)
        ∧ (r.val_vol = PF.num 0 → r.cases_index = PF.num 0))
      ∧ (r.total_volume = PF.nan → r.volume_index = PF.num 0)
      ∧ (r.adjusted_total_value = PF.nan → r.value_index = PF.num 0)
      ∧ (r.val_vol = PF.nan → r.cases_index = PF.num 0) := by
  intro r hr
  obtain ⟨hsv, -, anch, hanch⟩ := runPipeline_ok h
  rw [hsv] at hr
  obtain ⟨hvi, hvali, hci⟩ := saved_index_fields hr hanch
  have hanchF : (aRowsOf I).find? (fun x => x.year_quarter = "2012-q4") = some anch := hanch
  have hanchMem : anch ∈ aRowsOf I := List.mem_of_find?_eq_some hanchF
  have hanchQ : anch.year_quarter = "2012-q4" := by
    have := List.find?_some hanchF
    simpa using this
  obtain ⟨a1, a2, a3⟩ := aRow_quarter_fields hanchMem
  obtain ⟨f1, -, -, -, -, -, fAdj, fVV⟩ := saved_fields_by_quarter hr
  refine ⟨?_, ?_, ?_, ?_⟩
  · intro hq
    have hTV : anch.total_volume = r.total_volume := by
      rw [a1, hanchQ, f1, hq]
    have hAV : anch.adjusted_total_value = r.adjusted_total_value := by
      rw [a2, hanchQ, fAdj, hq]
    have hVV : anch.val_vol = r.val_vol := by
      rw [a3, hAV, hTV, ← fVV]
    refine ⟨?_, ?_, ?_, ?_, ?_, ?_⟩
    · intro v hval hvne
      rw [hvi, hTV, hval]
      simp [PF.div, PF.mul, PF.fillna0, hvne, div_self]
    · intro hz
      rw [hvi, hTV, hz]
      simp [PF.div, PF.mul, PF.fillna0]
    · intro v hval hvne
      rw [hvali, hAV, hval]
      simp [PF.div, PF.mul, PF.fillna0, hvne, div_self]
    · intro hz
      rw [hvali, hAV, hz]
      simp [PF.div, PF.mul, PF.fillna0]
    · intro v hval hvne
      rw [hci, hVV, hval]
      simp [PF.div, PF.mul, PF.fillna0, hvne, div_self]
    · intro hz
      rw [hci, hVV, hz]
      simp [PF.div, PF.mul, PF.fillna0]
  · intro hnan
    rw [hvi, hnan]
    cases anch.total_volume <;> simp [PF.div, PF.mul, PF.fillna0]
  · intro hnan
    rw [hvali, hnan]
    cases anch.adjusted_total_value <;> simp [PF.div, PF.mul, PF.fillna0]
  · intro hnan
    rw [hci, hnan]
    cases anch.val_vol <;> simp [PF.div, PF.mul, PF.fillna0]

/-- Witness for C6 (amended): the anchor row of a run with nonzero anchor
volume gets index exactly 100; the anchor row of a run with zero anchor
volume gets index 0. -/
theorem claim_C6_rebased_anchor_witness :
    rowC8.volume_index = PF.num 100 ∧ rowC6.volume_index = PF.num 0 := by
  have h8 := claim_C6_rebased_anchor exC8 resC8 (by with_unfolding_all rfl) rowC8
    (of_decide_eq_true (by with_unfolding_all rfl))
  have h6 := claim_C6_rebased_anchor exC6 resC6 (by with_unfolding_all rfl) rowC6
    (of_decide_eq_true (by with_unfolding_all rfl))
  exact ⟨(h8.1 (by with_unfolding_all rfl)).1 2 (by with_unfolding_all rfl) (by norm_num),
    (h6.1 (by with_unfolding_all rfl)).2.1 (by with_unfolding_all rfl)⟩

/-- C8: each row's exposure equals the pandas mean of (adjusted Area value ÷
resident population) over that Area's rows with Period strictly before
`2013-q1`, and exposure is identical on any two rows of the same Area. -/
theorem claim_C8_exposure (I : Inputs) (res : RunResult) (h : runPipeline I = .ok res) :
    ∀ r ∈ res.saved,
      r.exposure = pmean ((res.saved.filter
          (fun s => pyLt s.year_quarter "2013-q1" && decide (s.lacode = r.lacode))).map
        (fun s => PF.div s.adjusted_la_total_value s.residents_total))
      ∧ ∀ s ∈ res.saved, s.lacode = r.lacode → s.exposure = r.exposure := by
  intro r hr
  obtain ⟨hsv, -, -⟩ := runPipeline_ok h
  rw [hsv] at hr ⊢
  obtain ⟨-, -, hexp⟩ := saved_desert_exposure_fields hr
  refine ⟨?_, ?_⟩
  · rw [hexp]
    have hmapfil : (savedOf I).filter
          (fun s => pyLt s.year_quarter "2013-q1" && decide (s.lacode = r.lacode)) =
        ((bRowsOf I).filter
          (fun x => preLaspo x && decide (x.lacode = r.lacode))).map
          (finalize (bRowsOf I) I.rural_urban) := by
      unfold savedOf
      exact filter_map_comm _ _ _ (fun x => by simp [preLaspo]) (bRowsOf I)
    rw [hmapfil, List.map_map]
    have hfuneq : ((fun s : FinalRow => PF.div s.adjusted_la_total_value s.residents_total)
        ∘ finalize (bRowsOf I) I.rural_urban) = value_pc := by
      funext x
      simp [value_pc]
    rw [hfuneq]
    unfold exposureTable
    rw [lookupTbl_map_keys]
    by_cases hmem : r.lacode ∈
        sortedKeys pyLe (((bRowsOf I).filter preLaspo).map (·.lacode))
    · rw [if_pos hmem]
      rw [Option.getD_some, List.filter_filter]
      have hswap : (bRowsOf I).filter (fun a => decide (a.lacode = r.lacode) && preLaspo a) =
          (bRowsOf I).filter (fun x => preLaspo x && decide (x.lacode = r.lacode)) :=
        List.filter_congr (fun x _ => by rw [Bool.and_comm])
      rw [hswap]
    · rw [if_neg hmem]
      have hempty : (bRowsOf I).filter
          (fun x => preLaspo x && decide (x.lacode = r.lacode)) = [] := by
        rw [List.filter_eq_nil_iff]
        intro x hx hpx
        rw [Bool.and_eq_true] at hpx
        refine hmem (mem_sortedKeys.mpr (List.mem_map.mpr
          ⟨x, List.mem_filter.mpr ⟨hx, hpx.1⟩, ?_⟩))
        simpa using hpx.2
      rw [hempty]
      rfl
  · intro s hs hsl
    obtain ⟨-, -, hexp2⟩ := saved_desert_exposure_fields hs
    rw [hexp2, hexp, hsl]

/-- Witness for C8: two rows of area E1 (pre- and post-cutoff) carry the same
exposure value. -/
theorem claim_C8_exposure_witness :
    rowC8b.exposure = rowC8.exposure :=
  (claim_C8_exposure exC8 resC8 (by with_unfolding_all rfl) rowC8
    (of_decide_eq_true (by with_unfolding_all rfl))).2 rowC8b
    (of_decide_eq_true (by with_unfolding_all rfl)) (by with_unfolding_all rfl)

/-- C1 (counterexample): inputs whose census table lacks one LA leave NaN in
the final panel, yet the run completes, prints "NAs detected", and still
persists the panel — the missing-value check does not abort the save. -/
theorem claim_C1_counterexample :
    runPipeline exC1 = .ok resC1 ∧ hasNA resC1.saved = true ∧
      resC1.messages = ["NAs detected"] ∧ resC1.saved.length = 2 :=
  ⟨by with_unfolding_all rfl, by with_unfolding_all rfl,
   by with_unfolding_all rfl, by with_unfolding_all rfl⟩

/-- C1 (amended): the final missing-value check is diagnostic only — every
completed run saves the assembled panel unchanged, and the printed message
merely reports whether missing values remain. -/
theorem claim_C1_check_only_reports (I : Inputs) (res : RunResult)
    (h : runPipeline I = .ok res) :
    res.saved = savedOf I ∧
      res.messages =
        (if hasNA res.saved then ["NAs detected"] else ["No NAs in panel."]) := by
  obtain ⟨hsv, hmsg, -⟩ := runPipeline_ok h
  refine ⟨hsv, ?_⟩
  rw [hmsg, hsv]
  rfl

/-- Witness for C1 (amended) at the NaN-carrying inputs. -/
theorem claim_C1_check_only_reports_witness :
    resC1.saved = savedOf exC1 ∧
      resC1.messages =
        (if hasNA resC1.saved then ["NAs detected"] else ["No NAs in panel."]) :=
  claim_C1_check_only_reports exC1 resC1 (by with_unfolding_all rfl)

end Claims

end LegalAid
